import Mathlib

/-!
Verification of the three operational scripts of this repository
(CloudWatch_Logs_Error_Scanner.py, Disk_Space_Monitor_Linux.py,
auto_stop_ec2.py) against their natural-language specification.

Modelling conventions (shallow embedding):
* Remote clients (boto3 CloudWatch Logs, boto3 EC2) are modelled as explicit
  function parameters returning `Except AwsError response`; the `try/except
  (BotoCoreError, ClientError)` sites of the source become `match` on that
  `Except`.
* AWS responses are records whose optional dictionary keys (accessed in the
  source with `.get(key, default)`) are `Option` fields.
* Logging and other side effects are reified as trace values (lists of
  actions) returned by each function.
* Python `float` values are modelled as `ℚ`; the numeric comparisons the
  scripts perform (`usage > threshold`, `used / total * 100`) are exact on
  the values involved.
* Ambient wall-clock time (`time.time()`) is an explicit `now` parameter.
-/

/-- The exception categories caught by the scripts
(`botocore.exceptions.BotoCoreError`, `botocore.exceptions.ClientError`). -/
inductive AwsError where
  | botoCoreError (msg : String)
  | clientError (msg : String)
  deriving DecidableEq

def awsErrorMessage : AwsError → String
  | AwsError.botoCoreError m => m
  | AwsError.clientError m => m

/-- A Python exception escaping the guarded regions (here: `ValueError`
raised by `int()` on an unparsable string). -/
inductive PyError where
  | valueError (msg : String)
  deriving DecidableEq

/-- Whitespace characters removed by Python `str.strip()` (ASCII subset,
which is what the scripts can encounter in practice). -/
def isPySpace (c : Char) : Bool :=
  c = ' ' || c = '\t' || c = '\n' || c = '\r' || c = '\x0b' || c = '\x0c'

def pyStripList (cs : List Char) : List Char :=
  ((cs.dropWhile isPySpace).reverse.dropWhile isPySpace).reverse

/-- Python `str.strip()`. -/
def pyStrip (s : String) : String := String.mk (pyStripList s.toList)

/-- Leading sign of a Python numeric literal: returns (isNegative, rest). -/
def parseSign : List Char → Bool × List Char
  | '-' :: rest => (true, rest)
  | '+' :: rest => (false, rest)
  | cs => (false, cs)

def digitsToNat (cs : List Char) : Nat :=
  cs.foldl (fun n c => 10 * n + (c.toNat - 48)) 0

/-- Exponent suffix of a Python float literal: empty means exponent 0;
`e`/`E`, an optional sign and at least one digit is an explicit exponent;
anything else is a parse failure. -/
def parseExpPart : List Char → Option Int
  | [] => some 0
  | c :: rest =>
    if c = 'e' || c = 'E' then
      let (neg, rest2) := parseSign rest
      let ds := rest2.takeWhile Char.isDigit
      let rest3 := rest2.dropWhile Char.isDigit
      if ds.isEmpty || !rest3.isEmpty then none
      else some (if neg then -(digitsToNat ds : Int) else (digitsToNat ds : Int))
    else none

/-- Python `float(s)` on a string, valued in `ℚ`: optional surrounding
whitespace, optional sign, decimal digits with an optional single point
(at least one digit overall) and an optional exponent.  `none` models the
`ValueError` Python raises on any other input (e.g. `float("abc")`).
The non-finite literals `inf`/`nan` denote no rational and are outside the
model; no claim touches them. -/
def pythonFloat (s : String) : Option ℚ :=
  let cs := pyStripList s.toList
  let (neg, cs1) := parseSign cs
  let ip := cs1.takeWhile Char.isDigit
  let rest := cs1.dropWhile Char.isDigit
  let (fp, rest2) :=
    match rest with
    | '.' :: r => (r.takeWhile Char.isDigit, r.dropWhile Char.isDigit)
    | _ => ([], rest)
  if ip.isEmpty && fp.isEmpty then none
  else
    match parseExpPart rest2 with
    | none => none
    | some e =>
      let mant : ℚ := (digitsToNat (ip ++ fp) : ℚ) / ((10 : ℚ) ^ fp.length)
      let v : ℚ := mant * ((10 : ℚ) ^ e)
      some (if neg then -v else v)

/-- Python `int(s)` on a string: optional surrounding whitespace, optional
sign, at least one decimal digit.  `none` models the `ValueError` raised
otherwise (e.g. `int("abc")`). -/
def pythonInt (s : String) : Option Int :=
  let cs := pyStripList s.toList
  let (neg, cs1) := parseSign cs
  if cs1.isEmpty || !cs1.all Char.isDigit then none
  else some (if neg then -(digitsToNat cs1 : Int) else (digitsToNat cs1 : Int))

/-- Python truthiness of an `os.getenv` result: `None` and the empty string
are falsy, every other string is truthy. -/
def pyTruthy : Option String → Bool
  | none => false
  | some s => !s.isEmpty

/-! ## LogScanner (CloudWatch_Logs_Error_Scanner.py) -/

/-- One entry of the `logStreams` list of a `describe_log_streams`
response; `logStreamName` is accessed with `stream['logStreamName']`. -/
structure LogStreamRec where
  logStreamName : String
  deriving DecidableEq

/-- A `describe_log_streams` response; the source reads
`response.get('logStreams', [])`, so the key is optional. -/
structure DescribeLogStreamsResponse where
  logStreams : Option (List LogStreamRec)
  deriving DecidableEq

/-- One entry of the `events` list of a `filter_log_events` response; the
source reads `event.get('message', '')`, so the key is optional. -/
structure FilteredLogEvent where
  message : Option String
  deriving DecidableEq

/-- A `filter_log_events` response; the source reads
`response.get('events', [])`, so the key is optional. -/
structure FilterLogEventsResponse where
  events : Option (List FilteredLogEvent)
  deriving DecidableEq

/-- The keyword arguments of one `filter_log_events` call. -/
structure QueryCall where
  logGroupName : String
  logStreamNames : List String
  startTime : Int
  endTime : Int
  queryFilter : String
  deriving DecidableEq

/-- Observable actions of the scanner: one filter request per stream, one
warning line per matching event, one error line per failed stream. -/
inductive ScanAction where
  | filterQuery (q : QueryCall)
  | logWarning (line : String)
  | logError (line : String)
  deriving DecidableEq

/-- `get_recent_log_streams(logs_client, log_group, limit)`: returns the
stream names of the response, or on a caught backend error logs it and
returns `[]`.  Result: (returned names, error-log lines). -/
def get_recent_log_streams
    (describe_log_streams : String → Nat → Except AwsError DescribeLogStreamsResponse)
    (log_group : String) (limit : Nat) : List String × List String :=
  match describe_log_streams log_group limit with
  | Except.ok response =>
      ((response.logStreams.getD []).map LogStreamRec.logStreamName, [])
  | Except.error e =>
      ([], ["Error fetching log streams: " ++ awsErrorMessage e])

/-- Loop body of `scan_logs_for_pattern` for one stream: issue the filter
request for the window `[now - lookback_minutes*60*1000, now]`; on success
emit one warning per event, `[stream] message.strip()`; on a caught backend
error emit one error line. -/
def scanOneStream
    (logs_client : QueryCall → Except AwsError FilterLogEventsResponse)
    (log_group filter_pat : String) (lookback_minutes now : Int)
    (stream : String) : List ScanAction :=
  let start_time := now - lookback_minutes * 60 * 1000
  let q : QueryCall := ⟨log_group, [stream], start_time, now, filter_pat⟩
  ScanAction.filterQuery q ::
    match logs_client q with
    | Except.ok response =>
        (response.events.getD []).map (fun event =>
          ScanAction.logWarning ("[" ++ stream ++ "] " ++ pyStrip (event.message.getD "")))
    | Except.error e =>
        [ScanAction.logError ("Error scanning log stream " ++ stream ++ ": "
          ++ awsErrorMessage e)]

/-- `scan_logs_for_pattern(logs_client, log_group, log_streams,
filter_pattern, lookback_minutes)`: the `for stream in log_streams` loop,
with its own try/except per stream. -/
def scan_logs_for_pattern
    (logs_client : QueryCall → Except AwsError FilterLogEventsResponse)
    (log_group : String) (log_streams : List String)
    (filter_pat : String) (lookback_minutes now : Int) : List ScanAction :=
  match log_streams with
  | [] => []
  | stream :: rest =>
      scanOneStream logs_client log_group filter_pat lookback_minutes now stream
        ++ scan_logs_for_pattern logs_client log_group rest filter_pat lookback_minutes now

/-- Projection selecting the filter request of a scanner action, if any. -/
def queryOf : ScanAction → Option QueryCall
  | ScanAction.filterQuery q => some q
  | _ => none

/-- Projection selecting the warning line of a scanner action, if any. -/
def warningOf : ScanAction → Option String
  | ScanAction.logWarning line => some line
  | _ => none

/-- The filter requests contained in a scanner trace, in order. -/
def queriesOf (tr : List ScanAction) : List QueryCall :=
  tr.filterMap queryOf

/-- The warning lines contained in a scanner trace, in order. -/
def warningsOf (tr : List ScanAction) : List String :=
  tr.filterMap warningOf

/-! ## DiskMonitor (Disk_Space_Monitor_Linux.py) -/

/-- `get_disk_usage(path)`: `(used / total) * 100` for the filesystem
sample `(total, used)` returned by `shutil.disk_usage(path)`. -/
def get_disk_usage (total used : ℚ) : ℚ :=
  used / total * 100

/-- The environment variables read by `send_email_alert`; `None` models an
unset variable. -/
structure SmtpEnv where
  alert_email_from : Option String
  alert_email_to : Option String
  smtp_server : Option String
  smtp_port : Option String
  smtp_username : Option String
  smtp_password : Option String

/-- Observable actions of `send_email_alert`'s SMTP session.  The message
body reports the usage percentage, carried here as the exact value. -/
inductive SmtpAction where
  | connect (server : String) (port : Int)
  | ehlo
  | starttls
  | login (user pw : String)
  | sendMessage (sender recipient : String) (usage : ℚ)
  | logWarning (usage : ℚ)
  deriving DecidableEq

/-- `send_email_alert(usage)`.  `smtp_port = int(os.getenv("SMTP_PORT", 25))`
runs before the `try:` block, so a `ValueError` from `int()` escapes the
function — hence the `Except PyError` result.  The SMTP transport itself is
modelled as succeeding; the surrounding `try/except Exception` only changes
behaviour when the transport fails, which no claim here examines.
TLS and login happen only under `if smtp_user and smtp_pass:`. -/
def send_email_alert (env : SmtpEnv) (usage : ℚ) : Except PyError (List SmtpAction) :=
  let sender := env.alert_email_from.getD "devops@yourdomain.com"
  let recipient := env.alert_email_to.getD "admin@yourdomain.com"
  let server := env.smtp_server.getD "smtp.yourdomain.com"
  let portResult : Except PyError Int :=
    match env.smtp_port with
    | none => Except.ok 25
    | some s =>
      match pythonInt s with
      | some n => Except.ok n
      | none => Except.error (PyError.valueError
          ("invalid literal for int with base 10: " ++ s))
  match portResult with
  | Except.error e => Except.error e
  | Except.ok port =>
    Except.ok
      ([SmtpAction.connect server port, SmtpAction.ehlo]
        ++ (if pyTruthy env.smtp_username && pyTruthy env.smtp_password then
              [SmtpAction.starttls,
               SmtpAction.login (env.smtp_username.getD "") (env.smtp_password.getD "")]
            else [])
        ++ [SmtpAction.sendMessage sender recipient usage,
            SmtpAction.logWarning usage])

/-- Observable actions of `check_and_alert`: the usage log line (carried as
the exact values it formats), the call into `send_email_alert`, and plain
info lines. -/
inductive MonitorAction where
  | logUsage (usage threshold : ℚ)
  | sendAlertCall (usage : ℚ)
  | logInfo (line : String)
  deriving DecidableEq

/-- `check_and_alert(threshold, path)`: samples usage via `get_disk_usage`
on the filesystem sample `(total, used)`, logs it, and either calls
`send_email_alert(usage)` (when `usage > threshold`) or logs the
safe-limits line. -/
def check_and_alert (threshold total used : ℚ) : List MonitorAction :=
  let usage := get_disk_usage total used
  MonitorAction.logUsage usage threshold ::
    (if usage > threshold then
      [MonitorAction.sendAlertCall usage]
    else
      [MonitorAction.logInfo "Disk usage within safe limits."])

/-- Whether a monitor action is a call into `send_email_alert`. -/
def isAlertCall : MonitorAction → Bool
  | MonitorAction.sendAlertCall _ => true
  | _ => false

/-- Number of `send_email_alert` calls in a `check_and_alert` trace. -/
def countAlertCalls (tr : List MonitorAction) : Nat :=
  (tr.filter isAlertCall).length

/-- The `__main__` threshold resolution of Disk_Space_Monitor_Linux.py:
`try: threshold = float(threshold_env) except ValueError: threshold = 80.0`
with the error log line.  Result: (threshold, error-log lines). -/
def main_threshold (threshold_env : String) : ℚ × List String :=
  match pythonFloat threshold_env with
  | some v => (v, [])
  | none => (80, ["Invalid threshold value. Using default: 80"])

/-! ## InstanceStopper (auto_stop_ec2.py) -/

/-- One filter dictionary passed to `describe_instances`. -/
structure Ec2Filter where
  name : String
  values : List String
  deriving DecidableEq

/-- The filters `get_instances_to_stop` always passes. -/
def autoStopFilters : List Ec2Filter :=
  [⟨"tag:AutoStop", ["true"]⟩, ⟨"instance-state-name", ["running"]⟩]

/-- One instance record; `InstanceId` is accessed with
`instance['InstanceId']`. -/
structure InstanceRec where
  instanceId : String
  deriving DecidableEq

/-- One reservation; the source reads `reservation.get('Instances', [])`,
so the key is optional. -/
structure ReservationRec where
  instances : Option (List InstanceRec)
  deriving DecidableEq

/-- A `describe_instances` response; the source reads
`response.get('Reservations', [])`, so the key is optional. -/
structure DescribeInstancesResponse where
  reservations : Option (List ReservationRec)
  deriving DecidableEq

/-- `get_instances_to_stop(ec2_client)`: flattens the nested
reservation/instance shape with the list comprehension
`[instance['InstanceId'] for reservation in ... for instance in ...]`;
a caught backend error is logged and yields `[]`.
Result: (instance ids, error-log lines). -/
def get_instances_to_stop
    (describe_instances : List Ec2Filter → Except AwsError DescribeInstancesResponse) :
    List String × List String :=
  match describe_instances autoStopFilters with
  | Except.ok response =>
      (((response.reservations.getD []).map (fun reservation =>
          (reservation.instances.getD []).map InstanceRec.instanceId)).flatten, [])
  | Except.error e =>
      ([], ["Failed to describe instances: " ++ awsErrorMessage e])

/-- Observable actions of `stop_instances`: log lines and the single
`ec2_client.stop_instances(InstanceIds=...)` network call. -/
inductive Ec2Action where
  | logInfo (line : String)
  | logStopping (instance_ids : List String)
  | stopCall (instance_ids : List String)
  | logError (line : String)
  deriving DecidableEq

/-- `stop_instances(ec2_client, instance_ids)`: no-op with a log line on an
empty list (`if not instance_ids:`); otherwise one stop call for the whole
batch, then a success log or, on a caught backend error, an error log. -/
def stop_instances
    (stop_call : List String → Except AwsError Unit)
    (instance_ids : List String) : List Ec2Action :=
  if instance_ids.isEmpty then
    [Ec2Action.logInfo "No instances to stop."]
  else
    Ec2Action.logStopping instance_ids ::
      Ec2Action.stopCall instance_ids ::
        match stop_call instance_ids with
        | Except.ok _ => [Ec2Action.logInfo "Stop command issued successfully."]
        | Except.error e =>
            [Ec2Action.logError ("Failed to stop instances: " ++ awsErrorMessage e)]

/-- Whether an action is the `ec2_client.stop_instances` network call. -/
def isStopCall : Ec2Action → Bool
  | Ec2Action.stopCall _ => true
  | _ => false

/-- Number of stop calls in a `stop_instances` trace. -/
def countStopCalls (tr : List Ec2Action) : Nat :=
  (tr.filter isStopCall).length

/-! ## Theorems -/

/-- C1: for every threshold and filesystem sample, `check_and_alert` logs
the sampled usage and calls `send_email_alert` exactly once when
`usage > threshold` and zero times otherwise, in which case it logs
"Disk usage within safe limits." -/
theorem check_and_alert_spec (threshold total used : ℚ) :
    MonitorAction.logUsage (get_disk_usage total used) threshold
      ∈ check_and_alert threshold total used
    ∧ countAlertCalls (check_and_alert threshold total used) =
        (if get_disk_usage total used > threshold then 1 else 0)
    ∧ (¬ get_disk_usage total used > threshold →
        MonitorAction.logInfo "Disk usage within safe limits."
          ∈ check_and_alert threshold total used) := by
  refine ⟨?_, ?_, ?_⟩ <;>
    by_cases h : get_disk_usage total used > threshold <;>
      simp [check_and_alert, countAlertCalls, isAlertCall, h]

/-- Witness for C1 at threshold 80 on a 100-byte filesystem: usage 81
yields exactly one alert call, usage 79 yields zero and the safe-limits
log line. -/
theorem check_and_alert_spec_witness :
    countAlertCalls (check_and_alert 80 100 81) = 1
    ∧ countAlertCalls (check_and_alert 80 100 79) = 0
    ∧ MonitorAction.logInfo "Disk usage within safe limits."
        ∈ check_and_alert 80 100 79 := by
  have h81 := check_and_alert_spec 80 100 81
  have h79 := check_and_alert_spec 80 100 79
  refine ⟨?_, ?_, ?_⟩
  · rw [h81.2.1]; norm_num [get_disk_usage]
  · rw [h79.2.1]; norm_num [get_disk_usage]
  · exact h79.2.2 (by norm_num [get_disk_usage])

/-- C7: `get_disk_usage` computes `(used / total) * 100`; with
`used = total` it is 100, with `used = 0` it is 0, and for every valid
sample (`0 ≤ used ≤ total`, `0 < total`) it lies in [0, 100]. -/
theorem get_disk_usage_spec (total used : ℚ) (htotal : 0 < total)
    (h0 : 0 ≤ used) (h1 : used ≤ total) :
    get_disk_usage total used = used / total * 100
    ∧ get_disk_usage total total = 100
    ∧ get_disk_usage total 0 = 0
    ∧ 0 ≤ get_disk_usage total used
    ∧ get_disk_usage total used ≤ 100 := by
  refine ⟨rfl, ?_, ?_, ?_, ?_⟩
  · unfold get_disk_usage
    rw [div_self (ne_of_gt htotal)]
    norm_num
  · simp [get_disk_usage]
  · exact mul_nonneg (div_nonneg h0 htotal.le) (by norm_num)
  · unfold get_disk_usage
    have hle : used / total ≤ 1 := (div_le_one htotal).mpr h1
    nlinarith

/-- Witness for C7 on the sample total = 4, used = 3 (and its edge
samples used = 4, used = 0). -/
theorem get_disk_usage_spec_witness :
    get_disk_usage 4 4 = 100
    ∧ get_disk_usage 4 0 = 0
    ∧ 0 ≤ get_disk_usage 4 3
    ∧ get_disk_usage 4 3 ≤ 100 := by
  have h := get_disk_usage_spec 4 3 (by norm_num) (by norm_num) (by norm_num)
  exact ⟨h.2.1, h.2.2.1, h.2.2.2.1, h.2.2.2.2⟩

/-- C4 counterexample: not every configuration parsing error in
DiskMonitor is caught.  `smtp_port = int(os.getenv("SMTP_PORT", 25))` runs
before the try block of `send_email_alert`, so with `SMTP_PORT="abc"` the
`ValueError` surfaces out of the function. -/
theorem smtp_port_not_guarded :
    send_email_alert ⟨none, none, none, some "abc", none, none⟩ 90 =
      Except.error (PyError.valueError "invalid literal for int with base 10: abc") := by
  rfl

/-- C4 (amended): the threshold parsing error in `__main__` is caught and
replaced by the literal default 80 with a logged error (so "abc" resolves
to 80), and a parsed threshold is used as-is; but the SMTP_PORT
configuration value is parsed outside any guard, so an unparsable
SMTP_PORT string raises a ValueError that surfaces. -/
theorem threshold_default_spec :
    (∀ s, pythonFloat s = none →
      main_threshold s = (80, ["Invalid threshold value. Using default: 80"]))
    ∧ (∀ s v, pythonFloat s = some v → main_threshold s = (v, []))
    ∧ pythonFloat "abc" = none
    ∧ (∀ usage : ℚ, send_email_alert ⟨none, none, none, some "abc", none, none⟩ usage =
        Except.error (PyError.valueError "invalid literal for int with base 10: abc")) := by
  refine ⟨?_, ?_, by decide, ?_⟩
  · intro s hs
    simp [main_threshold, hs]
  · intro s v hs
    simp [main_threshold, hs]
  · intro usage
    rfl

/-- Witness for C4 (amended) at the inputs "abc" (threshold) and "abc"
(SMTP_PORT), usage 90. -/
theorem threshold_default_spec_witness :
    main_threshold "abc" = (80, ["Invalid threshold value. Using default: 80"])
    ∧ send_email_alert ⟨none, none, none, some "abc", none, none⟩ 90 =
        Except.error (PyError.valueError "invalid literal for int with base 10: abc") := by
  exact ⟨threshold_default_spec.1 "abc" threshold_default_spec.2.2.1,
    threshold_default_spec.2.2.2 90⟩

/-- C3: `get_recent_log_streams` returns at most `limit` names whenever
the backend honours the `limit` request parameter (the documented contract
of `describe_log_streams`), and on any backend error it logs the error and
returns an empty sequence without raising. -/
theorem get_recent_log_streams_spec
    (describe_log_streams : String → Nat → Except AwsError DescribeLogStreamsResponse)
    (log_group : String) (limit : Nat)
    (hlimit : ∀ response, describe_log_streams log_group limit = Except.ok response →
      (response.logStreams.getD []).length ≤ limit) :
    (get_recent_log_streams describe_log_streams log_group limit).1.length ≤ limit
    ∧ (∀ e, describe_log_streams log_group limit = Except.error e →
        get_recent_log_streams describe_log_streams log_group limit =
          ([], ["Error fetching log streams: " ++ awsErrorMessage e])) := by
  constructor
  · cases hres : describe_log_streams log_group limit with
    | ok response =>
        simpa [get_recent_log_streams, hres] using hlimit response hres
    | error e =>
        simp [get_recent_log_streams, hres]
  · intro e he
    simp [get_recent_log_streams, he]

/-- Witness for C3 with `limit = 5`: a backend returning two streams gives
at most 5 names; a backend raising `ClientError` gives `([], error log)`. -/
theorem get_recent_log_streams_spec_witness :
    (get_recent_log_streams
      (fun _ _ => Except.ok ⟨some [⟨"s1"⟩, ⟨"s2"⟩]⟩) "g" 5).1.length ≤ 5
    ∧ get_recent_log_streams
        (fun _ _ => Except.error (AwsError.clientError "boom")) "g" 5 =
        ([], ["Error fetching log streams: boom"]) := by
  constructor
  · exact (get_recent_log_streams_spec
      (fun _ _ => Except.ok ⟨some [⟨"s1"⟩, ⟨"s2"⟩]⟩) "g" 5
      (by intro r hr; injection hr with h; rw [← h]; decide)).1
  · exact (get_recent_log_streams_spec
      (fun _ _ => Except.error (AwsError.clientError "boom")) "g" 5
      (by intro r hr; exact Except.noConfusion hr)).2
      (AwsError.clientError "boom") rfl

/-- C5: `get_instances_to_stop` flattens the nested reservation/instance
response shape into a flat identifier list (its length is the sum of the
per-reservation instance counts; two reservations of one instance each
give the flat two-element id list), and on any backend error it logs the
error and returns an empty list. -/
theorem get_instances_to_stop_spec
    (describe_instances : List Ec2Filter → Except AwsError DescribeInstancesResponse) :
    (∀ response, describe_instances autoStopFilters = Except.ok response →
      (get_instances_to_stop describe_instances).1 =
        ((response.reservations.getD []).map (fun reservation =>
          (reservation.instances.getD []).map InstanceRec.instanceId)).flatten
      ∧ (get_instances_to_stop describe_instances).1.length =
        ((response.reservations.getD []).map (fun reservation =>
          (reservation.instances.getD []).length)).sum)
    ∧ (∀ i1 i2, describe_instances autoStopFilters =
        Except.ok ⟨some [⟨some [i1]⟩, ⟨some [i2]⟩]⟩ →
        (get_instances_to_stop describe_instances).1 = [i1.instanceId, i2.instanceId])
    ∧ (∀ e, describe_instances autoStopFilters = Except.error e →
        get_instances_to_stop describe_instances =
          ([], ["Failed to describe instances: " ++ awsErrorMessage e])) := by
  refine ⟨?_, ?_, ?_⟩
  · intro response hres
    constructor
    · simp [get_instances_to_stop, hres]
    · simp [get_instances_to_stop, hres, Function.comp_def, List.length_map]
  · intro i1 i2 hres
    simp [get_instances_to_stop, hres]
  · intro e he
    simp [get_instances_to_stop, he]

/-- Witness for C5: a response with 2 reservations of 1 instance each
flattens to the 2-element id list; a `BotoCoreError` yields `[]`. -/
theorem get_instances_to_stop_spec_witness :
    (get_instances_to_stop
      (fun _ => Except.ok ⟨some [⟨some [⟨"i-1"⟩]⟩, ⟨some [⟨"i-2"⟩]⟩]⟩)).1 =
      ["i-1", "i-2"]
    ∧ get_instances_to_stop (fun _ => Except.error (AwsError.botoCoreError "down")) =
        ([], ["Failed to describe instances: down"]) := by
  constructor
  · exact (get_instances_to_stop_spec
      (fun _ => Except.ok ⟨some [⟨some [⟨"i-1"⟩]⟩, ⟨some [⟨"i-2"⟩]⟩]⟩)).2.1
      ⟨"i-1"⟩ ⟨"i-2"⟩ rfl
  · exact (get_instances_to_stop_spec
      (fun _ => Except.error (AwsError.botoCoreError "down"))).2.2
      (AwsError.botoCoreError "down") rfl

/-- C6: `stop_instances` on an empty id list is a no-op with a log line
and zero stop calls; on a non-empty list it issues exactly one stop call
covering the whole batch; a stop-call error is logged and never raised
(the function is total and returns a trace in every case). -/
theorem stop_instances_spec
    (stop_call : List String → Except AwsError Unit) (instance_ids : List String) :
    (instance_ids = [] →
      stop_instances stop_call instance_ids = [Ec2Action.logInfo "No instances to stop."])
    ∧ countStopCalls (stop_instances stop_call instance_ids) =
        (if instance_ids.isEmpty then 0 else 1)
    ∧ (instance_ids ≠ [] →
        Ec2Action.stopCall instance_ids ∈ stop_instances stop_call instance_ids)
    ∧ (∀ e, stop_call instance_ids = Except.error e → instance_ids ≠ [] →
        Ec2Action.logError ("Failed to stop instances: " ++ awsErrorMessage e)
          ∈ stop_instances stop_call instance_ids) := by
  refine ⟨?_, ?_, ?_, ?_⟩
  · intro h
    subst h
    rfl
  · cases instance_ids with
    | nil => rfl
    | cons x xs =>
        cases hres : stop_call (x :: xs) <;>
          simp [stop_instances, countStopCalls, isStopCall, hres]
  · intro h
    cases instance_ids with
    | nil => exact absurd rfl h
    | cons x xs =>
        cases hres : stop_call (x :: xs) <;>
          simp [stop_instances, hres]
  · intro e he h
    cases instance_ids with
    | nil => exact absurd rfl h
    | cons x xs =>
        simp [stop_instances, he]

/-- Witness for C6: the empty batch produces only the no-op log line (zero
stop calls); the batch ["i-1"] under a failing backend produces exactly
one stop call and the error log line. -/
theorem stop_instances_spec_witness :
    stop_instances (fun _ => Except.error (AwsError.clientError "denied")) [] =
      [Ec2Action.logInfo "No instances to stop."]
    ∧ countStopCalls
        (stop_instances (fun _ => Except.error (AwsError.clientError "denied")) []) = 0
    ∧ countStopCalls
        (stop_instances (fun _ => Except.error (AwsError.clientError "denied")) ["i-1"]) = 1
    ∧ Ec2Action.stopCall ["i-1"]
        ∈ stop_instances (fun _ => Except.error (AwsError.clientError "denied")) ["i-1"]
    ∧ Ec2Action.logError "Failed to stop instances: denied"
        ∈ stop_instances (fun _ => Except.error (AwsError.clientError "denied")) ["i-1"] := by
  have hnil := stop_instances_spec (fun _ => Except.error (AwsError.clientError "denied")) []
  have hone := stop_instances_spec (fun _ => Except.error (AwsError.clientError "denied")) ["i-1"]
  refine ⟨hnil.1 rfl, ?_, ?_, hone.2.2.1 (by decide), ?_⟩
  · rw [hnil.2.1]; rfl
  · rw [hone.2.1]; rfl
  · exact hone.2.2.2 (AwsError.clientError "denied") rfl (by decide)

/-- Helper: a block of warning actions contains no filter request. -/
theorem filterMap_queryOf_logWarnings (f : FilteredLogEvent → String)
    (l : List FilteredLogEvent) :
    List.filterMap queryOf (l.map fun event => ScanAction.logWarning (f event)) = [] := by
  induction l with
  | nil => rfl
  | cons x xs ih => simp [queryOf, ih]

/-- Helper: extracting the warning lines of a block of warning actions. -/
theorem filterMap_warningOf_logWarnings (f : FilteredLogEvent → String)
    (l : List FilteredLogEvent) :
    List.filterMap warningOf (l.map fun event => ScanAction.logWarning (f event)) =
      l.map f := by
  induction l with
  | nil => rfl
  | cons x xs ih => simp [warningOf, ih]

/-- Helper: composed form of the previous lemma, as produced by
`List.filterMap_map`. -/
theorem filterMap_warningOf_comp (f : FilteredLogEvent → String)
    (l : List FilteredLogEvent) :
    List.filterMap (warningOf ∘ fun event => ScanAction.logWarning (f event)) l =
      l.map f := by
  induction l with
  | nil => rfl
  | cons x xs ih => simp [warningOf, Function.comp_def] at ih ⊢; exact ih

/-- Helper: the loop body issues exactly one filter request, for the
window `[now - lookback_minutes*60*1000, now]` of its stream. -/
theorem queriesOf_scanOneStream
    (logs_client : QueryCall → Except AwsError FilterLogEventsResponse)
    (log_group filter_pat : String) (lookback_minutes now : Int) (stream : String) :
    queriesOf (scanOneStream logs_client log_group filter_pat lookback_minutes now stream) =
      [⟨log_group, [stream], now - lookback_minutes * 60 * 1000, now, filter_pat⟩] := by
  unfold scanOneStream
  cases h : logs_client ⟨log_group, [stream], now - lookback_minutes * 60 * 1000, now, filter_pat⟩ with
  | ok response =>
      simp [h, queriesOf, queryOf, filterMap_queryOf_logWarnings]
  | error e =>
      simp [h, queriesOf, queryOf]

/-- Helper: the warning lines the loop body emits for one stream. -/
theorem warningsOf_scanOneStream
    (logs_client : QueryCall → Except AwsError FilterLogEventsResponse)
    (log_group filter_pat : String) (lookback_minutes now : Int) (stream : String) :
    warningsOf (scanOneStream logs_client log_group filter_pat lookback_minutes now stream) =
      (match logs_client ⟨log_group, [stream], now - lookback_minutes * 60 * 1000, now, filter_pat⟩ with
      | Except.ok response =>
          (response.events.getD []).map (fun event =>
            "[" ++ stream ++ "] " ++ pyStrip (event.message.getD ""))
      | Except.error _ => []) := by
  unfold scanOneStream
  cases h : logs_client ⟨log_group, [stream], now - lookback_minutes * 60 * 1000, now, filter_pat⟩ with
  | ok response =>
      simp [h, warningsOf, warningOf, filterMap_warningOf_logWarnings,
        filterMap_warningOf_comp]
  | error e =>
      simp [h, warningsOf, warningOf]

/-- Helper: the extraction maps distribute over trace concatenation. -/
theorem queriesOf_append (a b : List ScanAction) :
    queriesOf (a ++ b) = queriesOf a ++ queriesOf b := by
  simp [queriesOf]

/-- Helper: warning lines distribute over trace concatenation. -/
theorem warningsOf_append (a b : List ScanAction) :
    warningsOf (a ++ b) = warningsOf a ++ warningsOf b := by
  simp [warningsOf]

/-- C2: `scan_logs_for_pattern` processes each stream independently: the
trace of `stream :: rest` is the stream's own trace followed by the trace
of `rest`, whatever the per-stream query result was; in particular for
streams ["a", "b"] where querying "a" raises and "b" succeeds with one
event, the error on "a" is logged and the event of "b" is still logged. -/
theorem scan_partial_failure
    (logs_client : QueryCall → Except AwsError FilterLogEventsResponse)
    (log_group filter_pat : String) (lookback_minutes now : Int) :
    (∀ stream rest,
      scan_logs_for_pattern logs_client log_group (stream :: rest) filter_pat lookback_minutes now =
        scanOneStream logs_client log_group filter_pat lookback_minutes now stream
          ++ scan_logs_for_pattern logs_client log_group rest filter_pat lookback_minutes now)
    ∧ (∀ e response ev,
        logs_client ⟨log_group, ["a"], now - lookback_minutes * 60 * 1000, now, filter_pat⟩ =
          Except.error e →
        logs_client ⟨log_group, ["b"], now - lookback_minutes * 60 * 1000, now, filter_pat⟩ =
          Except.ok response →
        response.events = some [ev] →
        ScanAction.logError ("Error scanning log stream a: " ++ awsErrorMessage e)
          ∈ scan_logs_for_pattern logs_client log_group ["a", "b"] filter_pat lookback_minutes now
        ∧ ScanAction.logWarning ("[b] " ++ pyStrip (ev.message.getD ""))
          ∈ scan_logs_for_pattern logs_client log_group ["a", "b"] filter_pat lookback_minutes now) := by
  constructor
  · intro stream rest
    rfl
  · intro e response ev ha hb hev
    constructor
    · simp [scan_logs_for_pattern, scanOneStream, ha]
    · simp [scan_logs_for_pattern, scanOneStream, ha, hb, hev]

/-- Witness for C2: a client that raises `ClientError` on stream "a" and
returns one event with message "ERROR: x" on stream "b". -/
theorem scan_partial_failure_witness :
    ScanAction.logError "Error scanning log stream a: boom"
      ∈ scan_logs_for_pattern
          (fun q => if q.logStreamNames = ["a"] then Except.error (AwsError.clientError "boom")
            else Except.ok ⟨some [⟨some "ERROR: x"⟩]⟩)
          "g" ["a", "b"] "ERROR" 60 0
    ∧ ScanAction.logWarning "[b] ERROR: x"
      ∈ scan_logs_for_pattern
          (fun q => if q.logStreamNames = ["a"] then Except.error (AwsError.clientError "boom")
            else Except.ok ⟨some [⟨some "ERROR: x"⟩]⟩)
          "g" ["a", "b"] "ERROR" 60 0 := by
  have h := (scan_partial_failure
    (fun q => if q.logStreamNames = ["a"] then Except.error (AwsError.clientError "boom")
      else Except.ok ⟨some [⟨some "ERROR: x"⟩]⟩)
    "g" "ERROR" 60 0).2
    (AwsError.clientError "boom") ⟨some [⟨some "ERROR: x"⟩]⟩ ⟨some "ERROR: x"⟩
    rfl rfl rfl
  have h2 := h.2
  simp only [Option.getD_some] at h2
  rw [show ("[b] " ++ pyStrip "ERROR: x") = "[b] ERROR: x" from by decide] at h2
  exact ⟨h.1, h2⟩

/-- C8 counterexample: the logged message is not the event's message text
verbatim.  For an event with message " disk full " on stream "b", the
scanner emits `[b] disk full` (the source applies `.strip()` to the
message) and no line `[b]  disk full ` with the original text. -/
theorem scan_message_text_counterexample :
    ScanAction.logWarning ("[b] " ++ " disk full ")
      ∉ scan_logs_for_pattern (fun _ => Except.ok ⟨some [⟨some " disk full "⟩]⟩)
          "g" ["b"] "ERROR" 60 0
    ∧ ScanAction.logWarning "[b] disk full"
      ∈ scan_logs_for_pattern (fun _ => Except.ok ⟨some [⟨some " disk full "⟩]⟩)
          "g" ["b"] "ERROR" 60 0 := by
  decide

/-- C8 (amended): `scan_logs_for_pattern` issues exactly one query per
stream (no batching), each over the window
`[now - lookbackMinutes*60*1000, now]` with the filter pattern, and emits
exactly one warning-level log line per matching event in the form
`[streamName] message`, where message is the event's message text with
surrounding whitespace stripped. -/
theorem scan_logs_for_pattern_shape
    (logs_client : QueryCall → Except AwsError FilterLogEventsResponse)
    (log_group filter_pat : String) (log_streams : List String)
    (lookback_minutes now : Int) :
    queriesOf (scan_logs_for_pattern logs_client log_group log_streams
        filter_pat lookback_minutes now) =
      log_streams.map (fun stream =>
        ⟨log_group, [stream], now - lookback_minutes * 60 * 1000, now, filter_pat⟩)
    ∧ warningsOf (scan_logs_for_pattern logs_client log_group log_streams
        filter_pat lookback_minutes now) =
      (log_streams.map (fun stream =>
        match logs_client ⟨log_group, [stream], now - lookback_minutes * 60 * 1000,
            now, filter_pat⟩ with
        | Except.ok response =>
            (response.events.getD []).map (fun event =>
              "[" ++ stream ++ "] " ++ pyStrip (event.message.getD ""))
        | Except.error _ => [])).flatten := by
  induction log_streams with
  | nil => exact ⟨rfl, rfl⟩
  | cons stream rest ih =>
      constructor
      · simp only [scan_logs_for_pattern, queriesOf_append, queriesOf_scanOneStream,
          ih.1, List.map_cons]
        rfl
      · simp only [scan_logs_for_pattern, warningsOf_append, warningsOf_scanOneStream,
          ih.2, List.map_cons, List.flatten_cons]

/-- Helper: membership facts for the SMTP session trace, by the auth flag. -/
theorem smtp_trace_props (b : Bool) (srv : String) (p : Int) (u2 p2 s r : String)
    (usage : ℚ) (tr : List SmtpAction)
    (htr : tr = [SmtpAction.connect srv p, SmtpAction.ehlo]
      ++ (if b then [SmtpAction.starttls, SmtpAction.login u2 p2] else [])
      ++ [SmtpAction.sendMessage s r usage, SmtpAction.logWarning usage]) :
    ((SmtpAction.starttls ∈ tr) ↔ b = true)
    ∧ (∀ u p, SmtpAction.login u p ∈ tr → b = true)
    ∧ (b = false →
        SmtpAction.starttls ∉ tr
        ∧ (∀ u p, SmtpAction.login u p ∉ tr)
        ∧ SmtpAction.sendMessage s r usage ∈ tr) := by
  subst htr
  cases b <;> simp

/-- C9: `send_email_alert` performs the STARTTLS upgrade and SMTP login
exactly when both SMTP_USERNAME and SMTP_PASSWORD are set and non-empty
(Python truthiness of both); when that condition fails — in particular
when exactly one of the two is configured — the message is sent with
neither TLS nor authentication. -/
theorem send_email_alert_tls_policy (env : SmtpEnv) (usage : ℚ)
    (tr : List SmtpAction) (h : send_email_alert env usage = Except.ok tr) :
    ((SmtpAction.starttls ∈ tr) ↔
      (pyTruthy env.smtp_username && pyTruthy env.smtp_password) = true)
    ∧ (∀ u p, SmtpAction.login u p ∈ tr →
        (pyTruthy env.smtp_username && pyTruthy env.smtp_password) = true)
    ∧ ((pyTruthy env.smtp_username && pyTruthy env.smtp_password) = false →
        SmtpAction.starttls ∉ tr
        ∧ (∀ u p, SmtpAction.login u p ∉ tr)
        ∧ SmtpAction.sendMessage (env.alert_email_from.getD "devops@yourdomain.com")
            (env.alert_email_to.getD "admin@yourdomain.com") usage ∈ tr) := by
  obtain ⟨f, t, srv, port, user, pw⟩ := env
  simp only [send_email_alert] at h
  cases port with
  | none =>
      simp only [] at h
      injection h with h
      exact smtp_trace_props (pyTruthy user && pyTruthy pw) _ _ _ _ _ _ _ _ h.symm
  | some s =>
      simp only [] at h
      cases hpi : pythonInt s with
      | none =>
          rw [hpi] at h
          exact absurd h (by simp)
      | some n =>
          rw [hpi] at h
          injection h with h
          exact smtp_trace_props (pyTruthy user && pyTruthy pw) _ _ _ _ _ _ _ _ h.symm

/-- Witness for C9: with only SMTP_USERNAME configured (password unset),
the session performs neither STARTTLS nor login and still sends the
message. -/
theorem send_email_alert_tls_policy_witness :
    send_email_alert ⟨none, none, none, none, some "u", none⟩ 90 =
      Except.ok [SmtpAction.connect "smtp.yourdomain.com" 25, SmtpAction.ehlo,
        SmtpAction.sendMessage "devops@yourdomain.com" "admin@yourdomain.com" 90,
        SmtpAction.logWarning 90]
    ∧ SmtpAction.starttls
        ∉ [SmtpAction.connect "smtp.yourdomain.com" 25, SmtpAction.ehlo,
           SmtpAction.sendMessage "devops@yourdomain.com" "admin@yourdomain.com" (90 : ℚ),
           SmtpAction.logWarning 90]
    ∧ SmtpAction.sendMessage "devops@yourdomain.com" "admin@yourdomain.com" (90 : ℚ)
        ∈ [SmtpAction.connect "smtp.yourdomain.com" 25, SmtpAction.ehlo,
           SmtpAction.sendMessage "devops@yourdomain.com" "admin@yourdomain.com" (90 : ℚ),
           SmtpAction.logWarning 90] := by
  have h := send_email_alert_tls_policy ⟨none, none, none, none, some "u", none⟩ 90
    [SmtpAction.connect "smtp.yourdomain.com" 25, SmtpAction.ehlo,
     SmtpAction.sendMessage "devops@yourdomain.com" "admin@yourdomain.com" 90,
     SmtpAction.logWarning 90] rfl
  have hb := h.2.2 rfl
  exact ⟨rfl, hb.1, hb.2.2⟩

/-- C10: missing optional response keys are handled totally: a
`describe_log_streams` response without `logStreams` yields no names; a
`filter_log_events` response without `events` yields zero warnings; an
event without `message` is treated as the empty string (so the warning
line is just `[stream] `); a `describe_instances` response without
`Reservations`, or a reservation without `Instances`, contributes no ids.
All the embedded functions are total, so none of these lookups raises. -/
theorem optional_keys_total
    (describe_log_streams : String → Nat → Except AwsError DescribeLogStreamsResponse)
    (logs_client : QueryCall → Except AwsError FilterLogEventsResponse)
    (describe_instances : List Ec2Filter → Except AwsError DescribeInstancesResponse)
    (log_group stream filter_pat : String) (limit : Nat) (lookback_minutes now : Int) :
    (describe_log_streams log_group limit = Except.ok ⟨none⟩ →
      (get_recent_log_streams describe_log_streams log_group limit).1 = [])
    ∧ (logs_client ⟨log_group, [stream], now - lookback_minutes * 60 * 1000, now,
          filter_pat⟩ = Except.ok ⟨none⟩ →
        warningsOf (scan_logs_for_pattern logs_client log_group [stream]
          filter_pat lookback_minutes now) = [])
    ∧ (∀ response ev,
        logs_client ⟨log_group, [stream], now - lookback_minutes * 60 * 1000, now,
          filter_pat⟩ = Except.ok response →
        response.events = some [ev] → ev.message = none →
        ScanAction.logWarning ("[" ++ stream ++ "] ")
          ∈ scan_logs_for_pattern logs_client log_group [stream]
              filter_pat lookback_minutes now)
    ∧ (describe_instances autoStopFilters = Except.ok ⟨none⟩ →
        (get_instances_to_stop describe_instances).1 = [])
    ∧ (∀ r, describe_instances autoStopFilters = Except.ok ⟨some [⟨none⟩, r]⟩ →
        (get_instances_to_stop describe_instances).1 =
          (r.instances.getD []).map InstanceRec.instanceId) := by
  refine ⟨?_, ?_, ?_, ?_, ?_⟩
  · intro h
    simp [get_recent_log_streams, h]
  · intro h
    show warningsOf
      (scanOneStream logs_client log_group filter_pat lookback_minutes now stream
        ++ scan_logs_for_pattern logs_client log_group [] filter_pat lookback_minutes now) = []
    rw [warningsOf_append, warningsOf_scanOneStream, h]
    rfl
  · intro response ev h hev hmsg
    have key : ScanAction.logWarning ("[" ++ stream ++ "] " ++ pyStrip (ev.message.getD ""))
        ∈ scan_logs_for_pattern logs_client log_group [stream] filter_pat lookback_minutes now := by
      simp [scan_logs_for_pattern, scanOneStream, h, hev]
    rw [hmsg] at key
    rw [show (pyStrip ((none : Option String).getD "")) = "" from rfl] at key
    rw [String.append_empty] at key
    exact key
  · intro h
    simp [get_instances_to_stop, h]
  · intro r h
    simp [get_instances_to_stop, h]

/-- Witness for C10 on concrete backends exhibiting each missing key. -/
theorem optional_keys_total_witness :
    (get_recent_log_streams (fun _ _ => Except.ok ⟨none⟩) "g" 5).1 = []
    ∧ warningsOf (scan_logs_for_pattern (fun _ => Except.ok ⟨none⟩) "g" ["s"]
        "ERROR" 60 0) = []
    ∧ ScanAction.logWarning "[s] "
        ∈ scan_logs_for_pattern (fun _ => Except.ok ⟨some [⟨none⟩]⟩) "g" ["s"]
            "ERROR" 60 0
    ∧ (get_instances_to_stop (fun _ => Except.ok ⟨none⟩)).1 = []
    ∧ (get_instances_to_stop
        (fun _ => Except.ok ⟨some [⟨none⟩, ⟨some [⟨"i-1"⟩]⟩]⟩)).1 = ["i-1"] := by
  refine ⟨?_, ?_, ?_, ?_, ?_⟩
  · exact (optional_keys_total (fun _ _ => Except.ok ⟨none⟩) (fun _ => Except.ok ⟨none⟩)
      (fun _ => Except.ok ⟨none⟩) "g" "s" "ERROR" 5 60 0).1 rfl
  · exact (optional_keys_total (fun _ _ => Except.ok ⟨none⟩) (fun _ => Except.ok ⟨none⟩)
      (fun _ => Except.ok ⟨none⟩) "g" "s" "ERROR" 5 60 0).2.1 rfl
  · have h := (optional_keys_total (fun _ _ => Except.ok ⟨none⟩)
      (fun _ => Except.ok ⟨some [⟨none⟩]⟩) (fun _ => Except.ok ⟨none⟩)
      "g" "s" "ERROR" 5 60 0).2.2.1 ⟨some [⟨none⟩]⟩ ⟨none⟩ rfl rfl rfl
    simpa using h
  · exact (optional_keys_total (fun _ _ => Except.ok ⟨none⟩) (fun _ => Except.ok ⟨none⟩)
      (fun _ => Except.ok ⟨none⟩) "g" "s" "ERROR" 5 60 0).2.2.2.1 rfl
  · have h := (optional_keys_total (fun _ _ => Except.ok ⟨none⟩) (fun _ => Except.ok ⟨none⟩)
      (fun _ => Except.ok ⟨some [⟨none⟩, ⟨some [⟨"i-1"⟩]⟩]⟩)
      "g" "s" "ERROR" 5 60 0).2.2.2.2 ⟨some [⟨"i-1"⟩]⟩ rfl
    simpa using h
